import Mathlib

/-!
Verification of the ZeeCeeDee (zero cash date) calculator.

The repository computes, from a starting capital, a first-year withdrawal,
an inflation rate and a growth rate (all entered as plain numbers, rates in
percent), whether the capital is ever exhausted and in which year.  Two
variants exist in the sources: the plain solver/projector pair of
src/src/app/page.tsx (functions calculateZCD and generateYearlyData), and a
variant with a salary contribution phase in src/unnamed/part_001.

The embedding models JavaScript numbers by rational numbers; the single
transcendental operation, Math.log, is modelled by Real.log on the rational
value cast to the reals.  Division by zero in the model yields 0 (the
rational convention) where JavaScript would produce an infinity or NaN;
the claims settled below do not hinge on those corners except where noted.
-/

/-- Result record of the solver, mirroring the CalculationResult interface.
The zcd field is none exactly when the JavaScript value is the string
denoting an infinite horizon. -/
structure CalculationResult where
  zcd : Option ℤ
  isInfinite : Bool
  realGrowthRate : ℚ
  criticalCapital : Option ℚ
  spendingRate : ℚ
  sustainableRate : ℚ

/-- Yearly record of the projector, mirroring the YearlyData interface. -/
structure YearlyData where
  year : ℕ
  burnRate : ℚ
  portfolioValue : ℚ
  netWorth : ℚ
deriving DecidableEq

/-- Real growth multiplier R = (1 + G) / (1 + Inf) computed by the solver
from the percent inputs (step 1 of calculateZCD). -/
def Rfac (inflation growth : ℚ) : ℚ :=
  (1 + growth / 100) / (1 + inflation / 100)

/-- Critical capital K = B * R / (R - 1) computed by the solver in its
finite branch. -/
def Kcrit (burn inflation growth : ℚ) : ℚ :=
  burn * Rfac inflation growth / (Rfac inflation growth - 1)

/-- Year count of the finite branch of calculateZCD (page.tsx lines
120-134): the degenerate branch when |R - 1| < 0.0001, the defensive 0
when K - A <= 0, and otherwise the floor of 1 + log((K - B) / (K - A)) /
log R, with Math.log modelled by Real.log. -/
noncomputable def finiteN (startingAmount burn inflation growth : ℚ) : ℤ :=
  if |Rfac inflation growth - 1| < 1 / 10000 then
    ⌊startingAmount / burn⌋
  else if Kcrit burn inflation growth - startingAmount ≤ 0 then
    0
  else
    ⌊(1 : ℝ) + Real.log (((Kcrit burn inflation growth - burn) /
        (Kcrit burn inflation growth - startingAmount) : ℚ) : ℝ) /
      Real.log ((Rfac inflation growth : ℚ) : ℝ)⌋

/-- Solver of src/src/app/page.tsx (calculateZCD, lines 92-150): classify
infinite when B / A < (R - 1) / R, otherwise produce the finite year count
finiteN together with the critical capital. -/
noncomputable def calculateZCD (startingAmount burn inflation growth : ℚ) :
    CalculationResult :=
  if burn / startingAmount <
      (Rfac inflation growth - 1) / Rfac inflation growth then
    { zcd := none
      isInfinite := true
      realGrowthRate := (Rfac inflation growth - 1) * 100
      criticalCapital := none
      spendingRate := burn / startingAmount * 100
      sustainableRate := (Rfac inflation growth - 1) / Rfac inflation growth * 100 }
  else
    { zcd := some (finiteN startingAmount burn inflation growth)
      isInfinite := false
      realGrowthRate := (Rfac inflation growth - 1) * 100
      criticalCapital := some (Kcrit burn inflation growth)
      spendingRate := burn / startingAmount * 100
      sustainableRate := (Rfac inflation growth - 1) / Rfac inflation growth * 100 }

/-- Working-years loop of the part_001 solver (lines 195-217): for each
working year add the salary, withdraw the burn, stop with the depletion
year when the balance is not positive, otherwise grow the portfolio and
bump the burn.  G and Inf are the fractional rates.  Returns either the
depletion year or the pair (portfolio at retirement, retirement burn). -/
def workLoop (G Inf salary : ℚ) : ℕ → ℕ → ℚ → ℚ → ℕ ⊕ ℚ × ℚ
  | 0, _, p, b => Sum.inr (p, b)
  | remaining + 1, year, p, b =>
    if p + salary - b ≤ 0 then Sum.inl year
    else workLoop G Inf salary remaining (year + 1)
      ((p + salary - b) * (1 + G)) (b * (1 + Inf))

/-- Solver of src/unnamed/part_001 (calculateZCD with a salary phase,
lines 179-274).  Spending and sustainable rates are always computed from
the original inputs, while the infinite test and the finite year count use
the post-phase portfolio and burn; a depletion during the working years
short-circuits with that year. -/
noncomputable def calculateZCDSalary (startingAmount burn inflation growth
    postTaxSalary : ℚ) (yearsUntilRetirement : ℕ) : CalculationResult :=
  match workLoop (growth / 100) (inflation / 100) postTaxSalary
      yearsUntilRetirement 1 startingAmount burn with
  | Sum.inl year =>
    { zcd := some (year : ℤ)
      isInfinite := false
      realGrowthRate := (Rfac inflation growth - 1) * 100
      criticalCapital := none
      spendingRate := burn / startingAmount * 100
      sustainableRate := (Rfac inflation growth - 1) / Rfac inflation growth * 100 }
  | Sum.inr pb =>
    if pb.2 / pb.1 < (Rfac inflation growth - 1) / Rfac inflation growth then
      { zcd := none
        isInfinite := true
        realGrowthRate := (Rfac inflation growth - 1) * 100
        criticalCapital := none
        spendingRate := burn / startingAmount * 100
        sustainableRate := (Rfac inflation growth - 1) / Rfac inflation growth * 100 }
    else
      { zcd := some ((yearsUntilRetirement : ℤ) + finiteN pb.1 pb.2 inflation growth)
        isInfinite := false
        realGrowthRate := (Rfac inflation growth - 1) * 100
        criticalCapital := some (Kcrit pb.2 inflation growth)
        spendingRate := burn / startingAmount * 100
        sustainableRate := (Rfac inflation growth - 1) / Rfac inflation growth * 100 }

/-- Loop body of generateYearlyData (page.tsx lines 60-87): withdraw the
burn, emit a terminal record with portfolio clamped to 0 when the balance
is not positive, otherwise grow the portfolio, bump the burn, emit the
record with the bumped burn and recurse.  The fuel argument counts the
remaining loop iterations (maxYears - year + 1 at entry). -/
def genAux (G Inf : ℚ) : ℕ → ℕ → ℚ → ℚ → List YearlyData
  | 0, _, _, _ => []
  | remaining + 1, year, p, b =>
    if p - b ≤ 0 then [⟨year, b, 0, 0⟩]
    else
      ⟨year, b * (1 + Inf), (p - b) * (1 + G), (p - b) * (1 + G)⟩ ::
        genAux G Inf remaining (year + 1) ((p - b) * (1 + G)) (b * (1 + Inf))

/-- Projector of src/src/app/page.tsx (generateYearlyData, lines 47-90):
the year-0 record followed by the loop over years 1..maxYears.  G and Inf
are fractional rates as passed by the caller. -/
def generateYearlyData (A B G Inf : ℚ) (maxYears : ℕ) : List YearlyData :=
  ⟨0, B, A, A⟩ :: genAux G Inf maxYears 1 A B

/-- Branch tracker for the logarithm of calculateZCD: mirrors the branch
structure of the solver and returns the pair of arguments passed to
Math.log when the general finite branch is reached, none when no logarithm
is evaluated. -/
def zcdLogArgs (startingAmount burn inflation growth : ℚ) : Option (ℚ × ℚ) :=
  if burn / startingAmount <
      (Rfac inflation growth - 1) / Rfac inflation growth then none
  else if |Rfac inflation growth - 1| < 1 / 10000 then none
  else if Kcrit burn inflation growth - startingAmount ≤ 0 then none
  else some ((Kcrit burn inflation growth - burn) /
      (Kcrit burn inflation growth - startingAmount), Rfac inflation growth)

/-! Branch characterization lemmas for the plain solver. -/

lemma calculateZCD_isInfinite_iff (a b i g : ℚ) :
    (calculateZCD a b i g).isInfinite = true ↔
      b / a < (Rfac i g - 1) / Rfac i g := by
  unfold calculateZCD
  split_ifs with h <;> simp [h]

lemma calculateZCD_spendingRate (a b i g : ℚ) :
    (calculateZCD a b i g).spendingRate = b / a * 100 := by
  unfold calculateZCD
  split_ifs <;> rfl

lemma calculateZCD_sustainableRate (a b i g : ℚ) :
    (calculateZCD a b i g).sustainableRate =
      (Rfac i g - 1) / Rfac i g * 100 := by
  unfold calculateZCD
  split_ifs <;> rfl

lemma calculateZCD_zcd_of_finite (a b i g : ℚ)
    (h : ¬ b / a < (Rfac i g - 1) / Rfac i g) :
    (calculateZCD a b i g).zcd = some (finiteN a b i g) := by
  unfold calculateZCD
  rw [if_neg h]

lemma calculateZCD_zcd_of_infinite (a b i g : ℚ)
    (h : b / a < (Rfac i g - 1) / Rfac i g) :
    (calculateZCD a b i g).zcd = none := by
  unfold calculateZCD
  rw [if_pos h]

lemma workLoop_zero (G Inf salary : ℚ) (year : ℕ) (p b : ℚ) :
    workLoop G Inf salary 0 year p b = Sum.inr (p, b) := rfl

lemma calculateZCDSalary_inr (a b i g salary : ℚ) (Y : ℕ) (p bR : ℚ)
    (hw : workLoop (g / 100) (i / 100) salary Y 1 a b = Sum.inr (p, bR)) :
    calculateZCDSalary a b i g salary Y =
      if bR / p < (Rfac i g - 1) / Rfac i g then
        { zcd := none
          isInfinite := true
          realGrowthRate := (Rfac i g - 1) * 100
          criticalCapital := none
          spendingRate := b / a * 100
          sustainableRate := (Rfac i g - 1) / Rfac i g * 100 }
      else
        { zcd := some ((Y : ℤ) + finiteN p bR i g)
          isInfinite := false
          realGrowthRate := (Rfac i g - 1) * 100
          criticalCapital := some (Kcrit bR i g)
          spendingRate := b / a * 100
          sustainableRate := (Rfac i g - 1) / Rfac i g * 100 } := by
  unfold calculateZCDSalary
  rw [hw]

/-- C1: the claim asserts the equivalence between the infinite
classification and spending rate below sustainable rate for every input,
with or without a contribution phase.  The contribution-phase solver of
part_001 violates it (see the counterexample), because its infinite test
uses the post-phase portfolio and burn while the reported rates use the
original inputs.  Amended claim, proved here: the equivalence holds for
the plain solver on every input, and for the contribution-phase solver
whenever the contribution phase is empty (yearsUntilRetirement = 0). -/
theorem zcd_infinite_iff_rates : ∀ a b i g salary : ℚ,
    ((calculateZCD a b i g).isInfinite = true ↔
      (calculateZCD a b i g).spendingRate <
        (calculateZCD a b i g).sustainableRate) ∧
    ((calculateZCDSalary a b i g salary 0).isInfinite = true ↔
      (calculateZCDSalary a b i g salary 0).spendingRate <
        (calculateZCDSalary a b i g salary 0).sustainableRate) := by
  intro a b i g salary
  have h100 : (0 : ℚ) < 100 := by norm_num
  constructor
  · rw [calculateZCD_isInfinite_iff, calculateZCD_spendingRate,
      calculateZCD_sustainableRate]
    exact (mul_lt_mul_right h100).symm
  · rw [calculateZCDSalary_inr a b i g salary 0 a b (workLoop_zero _ _ _ _ _ _)]
    split_ifs with h
    · simpa using (mul_lt_mul_right h100).2 h
    · simp only [Bool.false_eq_true, false_iff]
      intro hc
      exact h ((mul_lt_mul_right h100).1 hc)

/-- C1 witness: the equivalence instantiated at a concrete input. -/
theorem zcd_infinite_iff_rates_witness :
    (calculateZCD 10 6 0 100).isInfinite = true ↔
    (calculateZCD 10 6 0 100).spendingRate <
      (calculateZCD 10 6 0 100).sustainableRate :=
  (zcd_infinite_iff_rates 10 6 0 100 0).1

/-- C1 counterexample: with a contribution phase (salary 10,000,000 for
one year on capital 100,000 with burn 50,000, inflation 3%, growth 7%),
the part_001 solver classifies the result infinite although the reported
spending rate (50%) exceeds the reported sustainable rate (about 3.74%),
so the claimed equivalence fails. -/
theorem zcd_infinite_rates_disagree :
    (calculateZCDSalary 100000 50000 3 7 10000000 1).isInfinite = true ∧
    ¬ ((calculateZCDSalary 100000 50000 3 7 10000000 1).spendingRate <
       (calculateZCDSalary 100000 50000 3 7 10000000 1).sustainableRate) := by
  have hw : workLoop ((7 : ℚ) / 100) ((3 : ℚ) / 100) 10000000 1 1 100000 50000
      = Sum.inr (10753500, 51500) := by
    norm_num [workLoop]
  rw [calculateZCDSalary_inr 100000 50000 3 7 10000000 1 10753500 51500 hw]
  have hcond : (51500 : ℚ) / 10753500 < (Rfac 3 7 - 1) / Rfac 3 7 := by
    norm_num [Rfac]
  rw [if_pos hcond]
  constructor
  · rfl
  · norm_num [Rfac]

/-- C7: the solver is total: every input, including a non-positive
starting capital, yields a well-formed result: the infinite flag with no
year count, or the finite flag with the year count finiteN; the spending
rate field is always the quotient expression of the source (in the
rational model a division by zero yields 0 rather than a JavaScript
infinity or NaN, which is the one place the embedding abstracts the
degenerate non-finite values the claim allows). -/
theorem calculateZCD_total : ∀ a b i g : ℚ,
    (((calculateZCD a b i g).isInfinite = true ∧
        (calculateZCD a b i g).zcd = none) ∨
     ((calculateZCD a b i g).isInfinite = false ∧
        (calculateZCD a b i g).zcd = some (finiteN a b i g))) ∧
    (calculateZCD a b i g).spendingRate = b / a * 100 := by
  intro a b i g
  unfold calculateZCD
  split_ifs with h <;> simp

/-- C9: when the growth rate equals the inflation rate the real growth
multiplier is exactly 1 (provided the inflation rate is not -100, so that
the quotient is defined), the infinite test cannot fire when the spending
ratio is nonnegative, the degenerate branch is hit, and the solver
returns floor(startingCapital / firstYearWithdrawal). -/
theorem zcd_degenerate_equal_rates : ∀ a b i g : ℚ, g = i →
    1 + i / 100 ≠ 0 → ¬ b / a < 0 →
    (calculateZCD a b i g).zcd = some ⌊a / b⌋ ∧
    (calculateZCD a b i g).isInfinite = false := by
  intro a b i g hg hi hba
  have hR : Rfac i g = 1 := by
    rw [Rfac, hg, div_self hi]
  have hs : (Rfac i g - 1) / Rfac i g = 0 := by
    rw [hR]
    norm_num
  have hinf : ¬ b / a < (Rfac i g - 1) / Rfac i g := by
    rw [hs]
    exact hba
  have hN : finiteN a b i g = ⌊a / b⌋ := by
    unfold finiteN
    rw [hR]
    norm_num
  refine ⟨?_, ?_⟩
  · rw [calculateZCD_zcd_of_finite a b i g hinf, hN]
  · unfold calculateZCD
    rw [if_neg hinf]

/-- C9 witness: capital 100, burn 30, inflation and growth both 5% gives
floor(100 / 30) = 3 finite years. -/
theorem zcd_degenerate_equal_rates_witness :
    (calculateZCD 100 30 5 5).zcd = some 3 ∧
    (calculateZCD 100 30 5 5).isInfinite = false := by
  have h := zcd_degenerate_equal_rates 100 30 5 5 rfl (by norm_num) (by norm_num)
  have hf : ⌊(100 : ℚ) / 30⌋ = 3 := by norm_num [Int.floor_eq_iff]
  rw [hf] at h
  exact h

/-! Structural lemmas for the projector loop. -/

lemma genAux_year (G Inf : ℚ) : ∀ (remaining year : ℕ) (p b : ℚ)
    (k : ℕ) (d : YearlyData),
    (genAux G Inf remaining year p b)[k]? = some d → d.year = year + k := by
  intro remaining
  induction remaining with
  | zero =>
    intro year p b k d hk
    simp [genAux] at hk
  | succ remaining ih =>
    intro year p b k d hk
    rw [genAux] at hk
    by_cases h : p - b ≤ 0
    · rw [if_pos h] at hk
      cases k with
      | zero =>
        simp at hk
        rw [← hk]
        simp
      | succ k =>
        simp at hk
    · rw [if_neg h] at hk
      cases k with
      | zero =>
        simp at hk
        rw [← hk]
        simp
      | succ k =>
        rw [List.getElem?_cons_succ] at hk
        have := ih (year + 1) ((p - b) * (1 + G)) (b * (1 + Inf)) k d hk
        omega

lemma genAux_spec (G Inf : ℚ) (hG : -1 < G) : ∀ (remaining year : ℕ) (p b : ℚ),
    0 < p → ∀ (k : ℕ) (d : YearlyData),
    (genAux G Inf remaining year p b)[k]? = some d →
    (0 < d.portfolioValue ∨ (d.portfolioValue = 0 ∧
        k + 1 = (genAux G Inf remaining year p b).length)) ∧
    (d.portfolioValue = 0 → d.burnRate = b * (1 + Inf) ^ k) ∧
    (d.portfolioValue ≠ 0 → d.burnRate = b * (1 + Inf) ^ (k + 1)) := by
  intro remaining
  induction remaining with
  | zero =>
    intro year p b hp k d hk
    simp [genAux] at hk
  | succ remaining ih =>
    intro year p b hp k d hk
    rw [genAux] at hk ⊢
    by_cases h : p - b ≤ 0
    · rw [if_pos h] at hk ⊢
      cases k with
      | zero =>
        simp at hk
        refine ⟨Or.inr ⟨by rw [← hk], by simp⟩, fun _ => ?_, fun hne => ?_⟩
        · rw [← hk]
          simp
        · rw [← hk] at hne
          simp at hne
      | succ k =>
        simp at hk
    · rw [if_neg h] at hk ⊢
      push_neg at h
      have hpos : 0 < (p - b) * (1 + G) := mul_pos h (by linarith)
      cases k with
      | zero =>
        simp at hk
        refine ⟨Or.inl ?_, fun h0 => ?_, fun _ => ?_⟩
        · rw [← hk]
          exact hpos
        · rw [← hk] at h0
          simp only at h0
          exact absurd h0 (ne_of_gt hpos)
        · rw [← hk]
          simp [pow_one]
      | succ k =>
        rw [List.getElem?_cons_succ] at hk
        obtain ⟨hdisj, hzero, hnz⟩ :=
          ih (year + 1) ((p - b) * (1 + G)) (b * (1 + Inf)) hpos k d hk
        refine ⟨?_, fun h0 => ?_, fun hne => ?_⟩
        · rcases hdisj with h1 | ⟨h1, h2⟩
          · exact Or.inl h1
          · refine Or.inr ⟨h1, ?_⟩
            rw [List.length_cons]
            omega
        · rw [hzero h0]
          ring
        · rw [hnz hne]
          ring

/-- C10: the claim asserts, for every input, consecutive year indices from
0, strictly positive capital on every record except possibly the last, and
capital clamped to exactly 0 only on a final depletion record.  The year
indexing holds universally, but the capital clauses fail when the growth
factor 1 + G is negative (growth below -100 percent): a non-final record
can then carry negative capital (see the counterexample).  Amended claim,
proved here: the year of the k-th record is k for all inputs, and whenever
the starting capital is positive and G exceeds -1, every record has
capital strictly positive except a final record with capital exactly 0,
after which no records are emitted. -/
theorem generateYearlyData_invariants : ∀ (A B G Inf : ℚ) (maxYears : ℕ),
    (∀ (k : ℕ) (d : YearlyData),
        (generateYearlyData A B G Inf maxYears)[k]? = some d → d.year = k) ∧
    (0 < A → -1 < G → ∀ (k : ℕ) (d : YearlyData),
        (generateYearlyData A B G Inf maxYears)[k]? = some d →
        0 < d.portfolioValue ∨ (d.portfolioValue = 0 ∧
          k + 1 = (generateYearlyData A B G Inf maxYears).length)) := by
  intro A B G Inf maxYears
  constructor
  · intro k d hk
    cases k with
    | zero =>
      simp [generateYearlyData] at hk
      rw [← hk]
    | succ k =>
      rw [generateYearlyData, List.getElem?_cons_succ] at hk
      have := genAux_year G Inf maxYears 1 A B k d hk
      omega
  · intro hA hG k d hk
    cases k with
    | zero =>
      simp [generateYearlyData] at hk
      rw [← hk]
      exact Or.inl hA
    | succ k =>
      rw [generateYearlyData, List.getElem?_cons_succ] at hk
      obtain ⟨hdisj, _, _⟩ := genAux_spec G Inf hG maxYears 1 A B hA k d hk
      rcases hdisj with h1 | ⟨h1, h2⟩
      · exact Or.inl h1
      · refine Or.inr ⟨h1, ?_⟩
        rw [generateYearlyData, List.length_cons]
        omega

/-- C10 witness: instantiation at capital 100, burn 60, growth 100
percent (G = 1), no inflation, horizon 5. -/
theorem generateYearlyData_invariants_witness :
    (generateYearlyData 100 60 1 0 5)[1]? = some ⟨1, 60, 80, 80⟩ ∧
    ((0 : ℚ) < YearlyData.portfolioValue ⟨1, 60, 80, 80⟩ ∨
      (YearlyData.portfolioValue ⟨1, 60, 80, 80⟩ = 0 ∧
        1 + 1 = (generateYearlyData 100 60 1 0 5).length)) := by
  have hget : (generateYearlyData 100 60 1 0 5)[1]? = some ⟨1, 60, 80, 80⟩ := by
    norm_num [generateYearlyData, genAux]
  exact ⟨hget, (generateYearlyData_invariants 100 60 1 0 5).2
    (by norm_num) (by norm_num) 1 ⟨1, 60, 80, 80⟩ hget⟩

/-- C10 counterexample: with growth -200 percent (G = -2) the record for
year 1 is non-final (the list has length 3) and carries the negative
capital -90, refuting the claimed invariant for every input. -/
theorem generateYearlyData_negative_capital :
    (generateYearlyData 100 10 (-2) 0 5)[1]? = some ⟨1, 10, -90, -90⟩ ∧
    (generateYearlyData 100 10 (-2) 0 5).length = 3 ∧
    YearlyData.portfolioValue ⟨1, 10, -90, -90⟩ < 0 := by
  refine ⟨?_, ?_, by norm_num⟩ <;> norm_num [generateYearlyData, genAux]

/-- C5: the claim asserts that the record emitted for a non-terminal year
N stores the withdrawal taken in year N before the inflation bump.  The
code bumps the burn first and stores the bumped value (page.tsx line 79
before line 83), so a non-terminal year-N record stores B * (1 + Inf) ^ N,
the withdrawal of year N + 1, not B * (1 + Inf) ^ (N - 1); the terminal
record does store the pre-bump withdrawal of its year.  Amended claim,
proved here (for positive starting capital and G above -1, so that
records with capital 0 are exactly the terminal ones): a record with
nonzero capital at index k stores the bumped burn B * (1 + Inf) ^ k, and
a record with capital 0 sits at an index k at least 1 and stores the
withdrawal B * (1 + Inf) ^ (k - 1) attempted in its year. -/
theorem generateYearlyData_burn_semantics : ∀ (A B G Inf : ℚ) (maxYears : ℕ),
    0 < A → -1 < G → ∀ (k : ℕ) (d : YearlyData),
    (generateYearlyData A B G Inf maxYears)[k]? = some d →
    (d.portfolioValue ≠ 0 → d.burnRate = B * (1 + Inf) ^ k) ∧
    (d.portfolioValue = 0 → 1 ≤ k ∧ d.burnRate = B * (1 + Inf) ^ (k - 1)) := by
  intro A B G Inf maxYears hA hG k d hk
  cases k with
  | zero =>
    simp [generateYearlyData] at hk
    constructor
    · intro _
      rw [← hk]
      simp
    · intro h0
      rw [← hk] at h0
      simp only at h0
      exact absurd h0 (ne_of_gt hA)
  | succ k =>
    rw [generateYearlyData, List.getElem?_cons_succ] at hk
    obtain ⟨_, hzero, hnz⟩ := genAux_spec G Inf hG maxYears 1 A B hA k d hk
    constructor
    · intro hne
      rw [hnz hne]
    · intro h0
      refine ⟨by omega, ?_⟩
      rw [hzero h0]
      simp

/-- C5 witness: at capital 1000, burn 100, growth 0, inflation 100
percent, the year-1 record has capital 900 and stores the bumped burn
200 = 100 * (1 + 1) ^ 1. -/
theorem generateYearlyData_burn_semantics_witness :
    (generateYearlyData 1000 100 0 1 3)[1]? = some ⟨1, 200, 900, 900⟩ ∧
    YearlyData.burnRate ⟨1, 200, 900, 900⟩ = 100 * ((1 : ℚ) + 1) ^ 1 := by
  have hget : (generateYearlyData 1000 100 0 1 3)[1]? = some ⟨1, 200, 900, 900⟩ := by
    norm_num [generateYearlyData, genAux]
  exact ⟨hget, (generateYearlyData_burn_semantics 1000 100 0 1 3
    (by norm_num) (by norm_num) 1 ⟨1, 200, 900, 900⟩ hget).1 (by norm_num)⟩

/-- C5 counterexample: the year-1 record of the same projection stores
burn 200, but the withdrawal taken in year 1 before the inflation bump
was 100 * (1 + 1) ^ 0 = 100, so the claim as stated is false. -/
theorem generateYearlyData_burn_not_prebump :
    (generateYearlyData 1000 100 0 1 3)[1]? = some ⟨1, 200, 900, 900⟩ ∧
    YearlyData.burnRate ⟨1, 200, 900, 900⟩ ≠ 100 * ((1 : ℚ) + 1) ^ 0 := by
  constructor
  · norm_num [generateYearlyData, genAux]
  · norm_num

/-! Evaluation of the floor of a logarithm quotient at rational points. -/

lemma calculateZCD_isInfinite_of_not (a b i g : ℚ)
    (h : ¬ b / a < (Rfac i g - 1) / Rfac i g) :
    (calculateZCD a b i g).isInfinite = false := by
  unfold calculateZCD
  rw [if_neg h]

lemma floor_log_div {R x : ℝ} {n : ℕ} (hR : 1 < R) (h1 : R ^ n ≤ x)
    (h2 : x < R ^ (n + 1)) :
    ⌊Real.log x / Real.log R⌋ = (n : ℤ) := by
  have hRpos : (0 : ℝ) < R := lt_trans one_pos hR
  have hlogR : 0 < Real.log R := Real.log_pos hR
  have hxpos : 0 < x := lt_of_lt_of_le (pow_pos hRpos n) h1
  have hlow : (n : ℝ) * Real.log R ≤ Real.log x := by
    have h := Real.log_le_log (pow_pos hRpos n) h1
    rwa [Real.log_pow] at h
  have hhigh : Real.log x < ((n : ℝ) + 1) * Real.log R := by
    have h := Real.log_lt_log hxpos h2
    rwa [Real.log_pow, Nat.cast_add, Nat.cast_one] at h
  rw [Int.floor_eq_iff]
  refine ⟨?_, ?_⟩
  · push_cast
    exact (le_div_iff hlogR).2 hlow
  · push_cast
    exact (div_lt_iff hlogR).2 hhigh

lemma finiteN_10_6 : finiteN 10 6 0 100 = 2 := by
  have hK : Kcrit 6 0 100 = 12 := by norm_num [Kcrit, Rfac]
  have hR : Rfac 0 100 = 2 := by norm_num [Rfac]
  unfold finiteN
  rw [hK, hR, if_neg (by norm_num), if_neg (by norm_num)]
  have harg : (((12 : ℚ) - 6) / (12 - 10) : ℚ) = 3 := by norm_num
  rw [harg]
  have hcast3 : (((3 : ℚ)) : ℝ) = 3 := by norm_num
  have hcast2 : (((2 : ℚ)) : ℝ) = 2 := by norm_num
  rw [hcast3, hcast2]
  have h1 : ⌊Real.log (3 : ℝ) / Real.log 2⌋ = (1 : ℤ) := by
    have h := floor_log_div (R := 2) (x := 3) (n := 1)
      (by norm_num) (by norm_num) (by norm_num)
    exact_mod_cast h
  rw [add_comm, Int.floor_add_one, h1]
  norm_num

lemma not_abs_lt_of_Rfac_halved : ¬ |Rfac 100 0 - 1| < 1 / 10000 := by
  rw [not_lt, le_abs]
  right
  norm_num [Rfac]

lemma finiteN_100_1 : finiteN 100 1 100 0 = 0 := by
  unfold finiteN
  rw [if_neg not_abs_lt_of_Rfac_halved, if_pos (by norm_num [Kcrit, Rfac])]

lemma calculateZCD_10_6_zcd : (calculateZCD 10 6 0 100).zcd = some 2 := by
  rw [calculateZCD_zcd_of_finite 10 6 0 100 (by norm_num [Rfac]), finiteN_10_6]

/-- C3: in the finite non-degenerate branch the solver returns the floor
of 1 + log((K - B) / (K - A)) / log R when K exceeds the starting
capital, and the defensive 0 when K - A is not positive. -/
theorem zcd_general_closed_form : ∀ a b i g : ℚ,
    ¬ b / a < (Rfac i g - 1) / Rfac i g →
    ¬ |Rfac i g - 1| < 1 / 10000 →
    (Kcrit b i g - a ≤ 0 → (calculateZCD a b i g).zcd = some 0) ∧
    (0 < Kcrit b i g - a → (calculateZCD a b i g).zcd =
      some ⌊(1 : ℝ) + Real.log (((Kcrit b i g - b) / (Kcrit b i g - a) : ℚ) : ℝ) /
        Real.log ((Rfac i g : ℚ) : ℝ)⌋) := by
  intro a b i g h1 h2
  constructor
  · intro h3
    rw [calculateZCD_zcd_of_finite a b i g h1]
    unfold finiteN
    rw [if_neg h2, if_pos h3]
  · intro h3
    rw [calculateZCD_zcd_of_finite a b i g h1]
    unfold finiteN
    rw [if_neg h2, if_neg (not_le.mpr h3)]

/-- C3 witness: the general branch at capital 10, burn 6, growth 100
percent, and the defensive branch at capital 100, burn 1, inflation 100
percent. -/
theorem zcd_general_closed_form_witness :
    (calculateZCD 10 6 0 100).zcd =
      some ⌊(1 : ℝ) + Real.log (((Kcrit 6 0 100 - 6) / (Kcrit 6 0 100 - 10) : ℚ) : ℝ) /
        Real.log ((Rfac 0 100 : ℚ) : ℝ)⌋ ∧
    (calculateZCD 100 1 100 0).zcd = some 0 := by
  constructor
  · exact (zcd_general_closed_form 10 6 0 100 (by norm_num [Rfac])
      (by norm_num [Rfac])).2 (by norm_num [Kcrit, Rfac])
  · exact (zcd_general_closed_form 100 1 100 0 (by norm_num [Rfac])
      not_abs_lt_of_Rfac_halved).1 (by norm_num [Kcrit, Rfac])

/-- C2: the claim asserts that whenever the solver returns a finite year
count N, the projection with horizon N reaches capital 0 at year N.  The
code violates this.  First failing input: capital 100, burn 1, inflation
100 percent, growth 0 gives R = 1/2, so K = -1 and the defensive branch
returns 0 years, yet the projection has capital 100 at year 0 and only
reaches 0 at year 7.  Second failing input: capital 10, burn 6, growth
100 percent, no inflation: the solver floors the continuous crossing
point 1 + log 3 / log 2 to 2, but the simulation still has capital 4
after year 2 and first clamps to 0 at year 3, an off-by-one between the
floor in the closed form and the simulated first year with non-positive
balance.  This theorem evaluates both sides at the failing inputs. -/
theorem solver_projector_mismatch :
    (calculateZCD 100 1 100 0).isInfinite = false ∧
    (calculateZCD 100 1 100 0).zcd = some 0 ∧
    (generateYearlyData 100 1 0 1 0).map (fun d => d.portfolioValue) = [100] ∧
    (generateYearlyData 100 1 0 1 10).map (fun d => (d.year, d.portfolioValue)) =
      [(0, 100), (1, 99), (2, 97), (3, 93), (4, 85), (5, 69), (6, 37), (7, 0)] ∧
    (calculateZCD 10 6 0 100).zcd = some 2 ∧
    (generateYearlyData 10 6 1 0 2).map (fun d => d.portfolioValue) = [10, 8, 4] ∧
    (generateYearlyData 10 6 1 0 3).map (fun d => (d.year, d.portfolioValue)) =
      [(0, 10), (1, 8), (2, 4), (3, 0)] := by
  refine ⟨calculateZCD_isInfinite_of_not 100 1 100 0 (by norm_num [Rfac]),
    ?_, ?_, ?_, calculateZCD_10_6_zcd, ?_, ?_⟩
  · rw [calculateZCD_zcd_of_finite 100 1 100 0 (by norm_num [Rfac]), finiteN_100_1]
  · norm_num [generateYearlyData, genAux]
  · norm_num [generateYearlyData, genAux]
  · norm_num [generateYearlyData, genAux]
  · norm_num [generateYearlyData, genAux]

/-- C8: the claim asserts that increasing the burn never increases the
returned year count and never flips finite to infinite.  The first part
fails at the critical boundary: with capital 10, growth 100 percent, a
burn of 5 sits exactly at the critical capital (K = 10), the defensive
branch returns 0 years, while the larger burn 6 gives K = 12 and 2
years.  This counterexample records both evaluations. -/
theorem zcd_not_monotone_in_burn :
    (calculateZCD 10 5 0 100).zcd = some 0 ∧
    (calculateZCD 10 6 0 100).zcd = some 2 ∧
    (5 : ℚ) < 6 ∧ (0 : ℤ) < 2 := by
  refine ⟨?_, calculateZCD_10_6_zcd, by norm_num, by norm_num⟩
  rw [calculateZCD_zcd_of_finite 10 5 0 100 (by norm_num [Rfac])]
  unfold finiteN
  rw [if_neg (by norm_num [Rfac]), if_pos (by norm_num [Kcrit, Rfac])]

/-- C8 amended: for positive starting capital, increasing the burn never
changes a finite classification into an infinite one (the spending ratio
only grows); the year-count monotonicity claimed alongside it fails at
the critical boundary, as the counterexample shows. -/
theorem burn_increase_keeps_finite : ∀ a b1 b2 i g : ℚ, 0 < a → b1 ≤ b2 →
    (calculateZCD a b1 i g).isInfinite = false →
    (calculateZCD a b2 i g).isInfinite = false := by
  intro a b1 b2 i g ha hb h1
  apply calculateZCD_isInfinite_of_not
  intro hlt
  have h1' : b1 / a < (Rfac i g - 1) / Rfac i g :=
    lt_of_le_of_lt ((div_le_div_right ha).mpr hb) hlt
  have h2 := (calculateZCD_isInfinite_iff a b1 i g).mpr h1'
  rw [h1] at h2
  exact absurd h2 (by simp)

/-- C8 witness: increasing the burn from 6 to 7 on capital 10 with
growth 100 percent keeps the classification finite. -/
theorem burn_increase_keeps_finite_witness :
    (0 : ℚ) < 10 ∧ (6 : ℚ) ≤ 7 ∧
    (calculateZCD 10 6 0 100).isInfinite = false ∧
    (calculateZCD 10 7 0 100).isInfinite = false := by
  have h6 : (calculateZCD 10 6 0 100).isInfinite = false :=
    calculateZCD_isInfinite_of_not 10 6 0 100 (by norm_num [Rfac])
  exact ⟨by norm_num, by norm_num, h6,
    burn_increase_keeps_finite 10 6 7 0 100 (by norm_num) (by norm_num) h6⟩

/-! Concrete scenario with capital 1,000,000: exact evaluation of the
closed form. -/

lemma Rfac_3_7 : Rfac 3 7 = 107 / 103 := by norm_num [Rfac]

lemma Kcrit_50000_3_7 : Kcrit 50000 3 7 = 1337500 := by
  norm_num [Kcrit, Rfac]

lemma finiteN_scenario1 : finiteN 1000000 50000 3 7 = 36 := by
  unfold finiteN
  rw [Kcrit_50000_3_7, Rfac_3_7,
    if_neg (by rw [not_lt, le_abs]; left; norm_num),
    if_neg (by norm_num)]
  have harg : (((1337500 : ℚ) - 50000) / (1337500 - 1000000) : ℚ) = 103 / 27 := by
    norm_num
  rw [harg]
  have hcast1 : (((103 : ℚ) / 27 : ℚ) : ℝ) = 103 / 27 := by push_cast; ring
  have hcast2 : (((107 : ℚ) / 103 : ℚ) : ℝ) = 107 / 103 := by push_cast; ring
  rw [hcast1, hcast2]
  have h35 : ⌊Real.log ((103 : ℝ) / 27) / Real.log (107 / 103)⌋ = (35 : ℤ) := by
    have h := floor_log_div (R := (107 : ℝ) / 103) (x := (103 : ℝ) / 27) (n := 35)
      (by norm_num) (by norm_num) (by norm_num)
    exact_mod_cast h
  rw [add_comm, Int.floor_add_one, h35]
  norm_num

/-- C6 amended: at capital 1,000,000, burn 50,000, inflation 3 percent,
growth 7 percent, the solver classifies the result finite (the 5 percent
spending rate exceeds the sustainable rate 400/107, about 3.738 percent)
and returns 36 years, the floor of 1 + log(103/27) / log(107/103), not
approximately 25 as claimed. -/
theorem zcd_scenario1 :
    (calculateZCD 1000000 50000 3 7).isInfinite = false ∧
    (calculateZCD 1000000 50000 3 7).zcd = some 36 ∧
    (calculateZCD 1000000 50000 3 7).spendingRate = 5 ∧
    (calculateZCD 1000000 50000 3 7).sustainableRate = 400 / 107 := by
  refine ⟨calculateZCD_isInfinite_of_not 1000000 50000 3 7 (by norm_num [Rfac]),
    ?_, ?_, ?_⟩
  · rw [calculateZCD_zcd_of_finite 1000000 50000 3 7 (by norm_num [Rfac]),
      finiteN_scenario1]
  · rw [calculateZCD_spendingRate]
    norm_num
  · rw [calculateZCD_sustainableRate, Rfac_3_7]
    norm_num

/-- C6 counterexample: the solver returns 36 years on the concrete
scenario, which is not approximately 25. -/
theorem zcd_scenario1_not_25 :
    (calculateZCD 1000000 50000 3 7).zcd = some 36 ∧
    (calculateZCD 1000000 50000 3 7).zcd ≠ some 25 := by
  have h : (calculateZCD 1000000 50000 3 7).zcd = some 36 := by
    rw [calculateZCD_zcd_of_finite 1000000 50000 3 7 (by norm_num [Rfac]),
      finiteN_scenario1]
  refine ⟨h, ?_⟩
  rw [h]
  simp

/-- C4 amended: the solver has no explicit test for R at or below 0.  In
that range the degenerate branch is unreachable (|R - 1| is at least 1),
so the logarithm is avoided exactly when the infinite test fires or the
defensive K - A at most 0 fallback catches the input; otherwise the
general branch evaluates Math.log at the base R itself, a non-positive
number (and possibly at a non-positive quotient as well), contrary to the
claim that such inputs always fall back to degenerate handling.  When the
logarithm branch is reached the solver result is the floor of the
logarithm expression on those very arguments. -/
theorem zcd_R_nonpos_log_branch : ∀ a b i g : ℚ,
    Rfac i g ≤ 0 →
    ((zcdLogArgs a b i g = none ↔
        (b / a < (Rfac i g - 1) / Rfac i g ∨ Kcrit b i g - a ≤ 0)) ∧
     (∀ x r : ℚ, zcdLogArgs a b i g = some (x, r) → r ≤ 0) ∧
     (∀ x r : ℚ, zcdLogArgs a b i g = some (x, r) →
        (calculateZCD a b i g).zcd =
          some ⌊(1 : ℝ) + Real.log ((x : ℚ) : ℝ) / Real.log ((r : ℚ) : ℝ)⌋)) := by
  intro a b i g hR
  have hdeg : ¬ |Rfac i g - 1| < 1 / 10000 := by
    rw [not_lt, le_abs]
    right
    linarith
  unfold zcdLogArgs
  by_cases h1 : b / a < (Rfac i g - 1) / Rfac i g
  · rw [if_pos h1]
    refine ⟨by simp [h1], ?_, ?_⟩ <;> intro x r hxr <;> simp at hxr
  · rw [if_neg h1, if_neg hdeg]
    by_cases h3 : Kcrit b i g - a ≤ 0
    · rw [if_pos h3]
      refine ⟨by simp [h3], ?_, ?_⟩ <;> intro x r hxr <;> simp at hxr
    · rw [if_neg h3]
      refine ⟨by simp [h1, h3], ?_, ?_⟩
      · intro x r hxr
        simp only [Option.some.injEq, Prod.mk.injEq] at hxr
        rw [← hxr.2]
        exact hR
      · intro x r hxr
        simp only [Option.some.injEq, Prod.mk.injEq] at hxr
        rw [← hxr.1, ← hxr.2]
        rw [calculateZCD_zcd_of_finite a b i g h1]
        unfold finiteN
        rw [if_neg hdeg, if_neg h3]

/-- C4 witness: at capital 100, burn 400, inflation 0, growth -150
percent, R = -1/2 is non-positive and the tracked logarithm branch is
reached (the infinite test fails since 4 is not below 3, and K - A =
100/3 is positive). -/
theorem zcd_R_nonpos_log_branch_witness :
    Rfac 0 (-150) ≤ 0 ∧ zcdLogArgs 100 400 0 (-150) ≠ none := by
  have hR : Rfac 0 (-150) ≤ 0 := by norm_num [Rfac]
  refine ⟨hR, ?_⟩
  intro hnone
  rcases (zcd_R_nonpos_log_branch 100 400 0 (-150) hR).1.mp hnone with hc | hc
  · norm_num [Rfac] at hc
  · norm_num [Kcrit, Rfac] at hc

/-- C4 counterexample: at capital 100, burn 400, inflation 0, growth -150
percent, R = -1/2 is non-positive yet the solver reaches the logarithm
with arguments -8 and -1/2, both non-positive, instead of detecting the
case and falling back to degenerate handling. -/
theorem zcd_R_nonpos_evaluates_log :
    Rfac 0 (-150) ≤ 0 ∧
    zcdLogArgs 100 400 0 (-150) = some (-8, -1 / 2) ∧
    (-8 : ℚ) ≤ 0 ∧ (-1 / 2 : ℚ) ≤ 0 := by
  have hR2 : Rfac 0 (-150) = -1 / 2 := by norm_num [Rfac]
  have hK : Kcrit 400 0 (-150) = 400 / 3 := by norm_num [Kcrit, Rfac]
  refine ⟨by rw [hR2]; norm_num, ?_, by norm_num, by norm_num⟩
  unfold zcdLogArgs
  rw [hR2, hK, if_neg (by norm_num),
    if_neg (by rw [not_lt, le_abs]; right; norm_num),
    if_neg (by norm_num)]
  simp only [Option.some.injEq, Prod.mk.injEq]
  constructor <;> norm_num
